import Mathlib

/-!
Verification development for the HTTP/HTTPS CONNECT tunnel-establishment
logic of `src/wocky-http-proxy.c`.

Modelling conventions:
* C byte strings (`gchar *`) are modelled as `List Nat`, one element per
  byte.  C strings cannot contain an interior NUL, so the lists are taken
  NUL-free; the terminating NUL is implicit at the end of the list, and
  reading past the end (`cget`) yields 0, exactly as dereferencing the
  terminator would.
* GLib collaborators that are not part of this repository
  (`g_base64_encode`, `g_output_stream_write_all`, the byte-stream and TLS
  layers) are modelled from their documented contracts; the repository
  code under `src/` is translated directly.
* Machine integers are modelled as `Nat`/`Int`; the status codes involved
  are far below any overflow boundary.
-/

namespace WockyHttpProxy

/-- Bytes of an ASCII string literal. -/
def str (s : String) : List Nat :=
  s.toList.map Char.toNat

/-- C string dereference at an index: past the end of the (NUL-free) byte
list we read the terminating NUL, i.e. 0. -/
def cget (b : List Nat) (i : Nat) : Nat :=
  b.getD i 0

/-- The byte predicate of `g_ascii_isdigit`. -/
def isDigitByte (c : Nat) : Bool :=
  decide (48 ≤ c) && decide (c ≤ 57)

/-- The byte predicate of C `isspace` (used by `atoi`). -/
def isSpaceByte (c : Nat) : Bool :=
  (c == 32) || (decide (9 ≤ c) && decide (c ≤ 13))

/-- Accumulating decimal-digit parser underlying `atoi`. -/
def parseDigits : List Nat → Nat → Nat
  | c :: rest, acc =>
    if isDigitByte c then parseDigits rest (acc * 10 + (c - 48)) else acc
  | [], acc => acc

/-- C `atoi`: skip C whitespace, accept an optional sign, then read a run
of decimal digits (an empty run yields 0). -/
def atoi (l : List Nat) : Int :=
  match l.dropWhile isSpaceByte with
  | 45 :: rest => - (parseDigits rest 0 : Int)
  | 43 :: rest => (parseDigits rest 0 : Int)
  | l2 => (parseDigits l2 0 : Int)

/-- Decimal byte rendering of a natural number (printf `%i` on a
non-negative `gint`). -/
def natToDec (n : Nat) : List Nat :=
  str (Nat.repr n)

/-- Decimal byte rendering of an integer (printf `%i`). -/
def intToDec (i : Int) : List Nat :=
  str (toString i)

/-! ## Base64 (GLib collaborators `g_base64_encode` / decoding)

`g_base64_encode` is a GLib collaborator, not code of this repository;
modelled from its contract: standard RFC 4648 Base64 with `=` padding and
no line breaks. -/

/-- Byte value of the Base64 alphabet character for a sextet. -/
def b64char (k : Nat) : Nat :=
  if k < 26 then 65 + k
  else if k < 52 then 97 + (k - 26)
  else if k < 62 then 48 + (k - 52)
  else if k = 62 then 43
  else 47

/-- Sextet value of a Base64 alphabet byte. -/
def b64val (c : Nat) : Nat :=
  if 65 ≤ c ∧ c ≤ 90 then c - 65
  else if 97 ≤ c ∧ c ≤ 122 then c - 71
  else if 48 ≤ c ∧ c ≤ 57 then c + 4
  else if c = 43 then 62
  else if c = 47 then 63
  else 0

/-- RFC 4648 Base64 encoding of a byte sequence (model of
`g_base64_encode` with `break_lines` unset). -/
def g_base64_encode : List Nat → List Nat
  | [] => []
  | [a] =>
    [b64char (a / 4), b64char ((a % 4) * 16), 61, 61]
  | [a, b] =>
    [b64char (a / 4), b64char ((a % 4) * 16 + b / 16), b64char ((b % 16) * 4), 61]
  | a :: b :: c :: rest =>
    b64char (a / 4) :: b64char ((a % 4) * 16 + b / 16) ::
      b64char ((b % 16) * 4 + c / 64) :: b64char (c % 64) ::
      g_base64_encode rest

/-- Modelled from the spec: a standard RFC 4648 Base64 decoder (the
decoding direction is only named by the spec, "decodes back to exactly
username:password"; no decoder appears under `src/`). `=` padding, byte
61, marks a short final group. -/
def g_base64_decode : List Nat → List Nat
  | c1 :: c2 :: c3 :: c4 :: rest =>
    if c3 = 61 then
      [b64val c1 * 4 + b64val c2 / 16]
    else if c4 = 61 then
      [b64val c1 * 4 + b64val c2 / 16, (b64val c2 % 16) * 16 + b64val c3 / 4]
    else
      (b64val c1 * 4 + b64val c2 / 16) ::
        ((b64val c2 % 16) * 16 + b64val c3 / 4) ::
        ((b64val c3 % 4) * 64 + b64val c4) ::
        g_base64_decode rest
  | _ => []

/-! ## Data model -/

/-- Error codes of the `G_IO_ERROR` domain that the tunnel code can
produce or propagate. -/
inductive GIOErrorCode where
  | proxyFailed
  | proxyAuthFailed
  | proxyNeedAuth
  | other (n : Nat)
  deriving DecidableEq, Repr

/-- A `GError`: domain code plus message bytes. -/
structure GError where
  code : GIOErrorCode
  message : List Nat
  deriving DecidableEq, Repr

/-- The destination descriptor (`GProxyAddress`): hostname bytes, port,
and optional credentials.  A `NULL` username or password is `none`; an
empty C string is `some []`. -/
structure GProxyAddress where
  destination_hostname : List Nat
  destination_port : Nat
  username : Option (List Nat)
  password : Option (List Nat)

/-- Build-environment inputs of `create_request` that come from outside
this repository: `g_hostname_to_ascii` and the GLib version numbers baked
into the `User-Agent` header. -/
structure BuildEnv where
  toAscii : List Nat → List Nat
  glib_major : Nat
  glib_minor : Nat

/-! ## Request builder (`create_request`) -/

/-- The fixed leading header block of `create_request`: the single
`g_string_append_printf` producing the request line and the `Host`,
`Proxy-Connection` and `User-Agent` headers. -/
def requestBase (benv : BuildEnv) (addr : GProxyAddress) : List Nat :=
  str "CONNECT " ++ benv.toAscii addr.destination_hostname ++ str ":" ++
    natToDec addr.destination_port ++ str " HTTP/1.0\r\n" ++
  str "Host: " ++ benv.toAscii addr.destination_hostname ++ str ":" ++
    natToDec addr.destination_port ++ str "\r\n" ++
  str "Proxy-Connection: keep-alive\r\n" ++
  str "User-Agent: GLib/" ++ natToDec benv.glib_major ++ str "." ++
    natToDec benv.glib_minor ++ str "\r\n"

/-- `create_request`: render the CONNECT request bytes and report whether
a `Proxy-Authorization` header was included (`*has_cred`).  The header is
appended exactly when both `username` and `password` are non-NULL. -/
def create_request (benv : BuildEnv) (addr : GProxyAddress) : List Nat × Bool :=
  match addr.username, addr.password with
  | some u, some p =>
    (requestBase benv addr ++
      str "Proxy-Authorization: Basic " ++
      g_base64_encode (u ++ str ":" ++ p) ++ str "\r\n" ++
      str "\r\n", true)
  | _, _ => (requestBase benv addr ++ str "\r\n", false)

/-! ## Reply parser (`check_reply`) -/

/-- Version-prefix validation of `check_reply`: `strncmp (buffer,
"HTTP/1.", 7) == 0` and `buffer[7]` is the character 0 or 1. -/
def validPrefix (buffer : List Nat) : Prop :=
  buffer.take 7 = str "HTTP/1." ∧ (cget buffer 7 = 48 ∨ cget buffer 7 = 49)

instance (buffer : List Nat) : Decidable (validPrefix buffer) :=
  inferInstanceAs (Decidable (_ ∧ _))

/-- The pointer position handed to `atoi`: past the 8-byte version prefix
and the following run of space bytes. -/
def statusStart (buffer : List Nat) : List Nat :=
  (buffer.drop 8).dropWhile (fun c => c == 32)

/-- The status code `err_code = atoi (ptr)` of `check_reply`. -/
def parsedCode (buffer : List Nat) : Int :=
  atoi (statusStart buffer)

/-- The reason phrase of a non-2xx reply: skip the digit run and the
following spaces, then take everything up to the first carriage return or
the end of the buffer (the `strchr` pair and `g_strndup`). -/
def reasonPhrase (buffer : List Nat) : List Nat :=
  (((statusStart buffer).dropWhile isDigitByte).dropWhile
      (fun c => c == 32)).takeWhile (fun c => !(c == 13))

/-- The `Bad HTTP proxy reply` error of the version-prefix check. -/
def badReplyError : GError :=
  ⟨.proxyFailed, str "Bad HTTP proxy reply"⟩

/-- `check_reply`: classify one received reply buffer.  `Except.ok ()`
is the C `TRUE` return; an error carries the `GError` the C code sets. -/
def check_reply (buffer : List Nat) (has_cred : Bool) : Except GError Unit :=
  if validPrefix buffer then
    if parsedCode buffer < 200 ∨ 300 ≤ parsedCode buffer then
      if parsedCode buffer = 407 then
        if has_cred then
          .error ⟨.proxyAuthFailed, str "HTTP proxy authentication failed"⟩
        else
          .error ⟨.proxyNeedAuth, str "HTTP proxy authentication required"⟩
      else if reasonPhrase buffer = [] then
        .error ⟨.proxyFailed, str "Connection failed due to broken HTTP reply"⟩
      else
        .error ⟨.proxyFailed,
          str "HTTP proxy connection failed: " ++ intToDec (parsedCode buffer) ++
            (32 :: reasonPhrase buffer)⟩
    else
      .ok ()
  else
    .error badReplyError

/-! ## Tunnel environment

One connect attempt interacts with its collaborators through: the TLS
layer (stream wrapping and handshake, HTTPS variant only), a sequence of
write completions, and one `g_data_input_stream_read_until` outcome.
Each failing collaborator call reports a `GError` per the GIO contract;
`read_until` may additionally return no buffer and no error when the
stream ends (end-of-stream), the case both drivers normalize. -/

/-- Result of one `g_output_stream_write` operation: the number of bytes
actually transferred, or an error. -/
inductive WriteOutcome where
  | wrote (n : Nat)
  | failed (e : GError)
  deriving DecidableEq, Repr

/-- Result of the `read_until` call: a reply buffer, a bare end-of-stream
(`NULL` with no error set), or an error. -/
inductive ReadOutcome where
  | got (buffer : List Nat)
  | closed
  | failed (e : GError)
  deriving DecidableEq, Repr

/-- One attempt's environment: outcomes the collaborators deliver, in
order.  `writes` lists the successive write completions (arbitrary
chunking); a finite list models an environment that stops delivering. -/
structure ProxyEnv where
  tlsNew : Except GError Unit
  handshake : Except GError Unit
  writes : List WriteOutcome
  readO : ReadOutcome

/-- The stream handed back on success: the caller's raw stream, or the
TLS wrapper created for the HTTPS variant. -/
inductive GStream where
  | raw
  | tls
  deriving DecidableEq, Repr

/-- The normalized premature-close error both drivers produce. -/
def closedUnexpectedlyError : GError :=
  ⟨.proxyFailed, str "HTTP proxy server closed connection unexpectedly."⟩

/-- GLib collaborator `g_output_stream_write_all`: loop writing from
offset `nwritten` until `count` bytes are transferred or a write fails.
`none` means the environment stopped delivering completions (the blocking
call would still be waiting). -/
def g_output_stream_write_all (ws : List WriteOutcome) (nwritten count : Nat) :
    Option (Except GError Unit) :=
  if nwritten < count then
    match ws with
    | [] => none
    | .failed e :: _ => some (.error e)
    | .wrote n :: rest => g_output_stream_write_all rest (nwritten + n) count
  else
    some (.ok ())

/-- Body of the blocking driver from `g_io_stream_get_input_stream`
onwards, once `io_stream` is the (possibly TLS-wrapped) stream: build the
request, write it all, read until the end marker, normalize a bare
end-of-stream, and validate the reply. -/
def connect_after_tls (benv : BuildEnv) (env : ProxyEnv) (addr : GProxyAddress)
    (io_stream : GStream) : Option (Except GError GStream) :=
  match g_output_stream_write_all env.writes 0 (create_request benv addr).1.length with
  | none => none
  | some (.error e) => some (.error e)
  | some (.ok _) =>
    match env.readO with
    | .failed e => some (.error e)
    | .closed => some (.error closedUnexpectedlyError)
    | .got buffer =>
      match check_reply buffer (create_request benv addr).2 with
      | .error e => some (.error e)
      | .ok _ => some (.ok io_stream)

/-- The blocking driver `wocky_http_proxy_connect`.  `isHttps` is
`WOCKY_IS_HTTPS_PROXY (proxy)`.  A `some (.error e)` is the C `NULL`
return with `*error = e`; `none` means the environment delivered too few
write completions for the attempt to finish. -/
def wocky_http_proxy_connect (benv : BuildEnv) (isHttps : Bool)
    (env : ProxyEnv) (addr : GProxyAddress) : Option (Except GError GStream) :=
  if isHttps then
    match env.tlsNew with
    | .error e => some (.error e)
    | .ok _ =>
      match env.handshake with
      | .error e => some (.error e)
      | .ok _ => connect_after_tls benv env addr .tls
  else
    connect_after_tls benv env addr .raw

/-! ## Suspendable driver -/

/-- The `ConnectAsyncData` task data of the suspendable driver. -/
structure ConnectAsyncData where
  io_stream : GStream
  buffer : Option (List Nat)
  length : Nat
  offset : Nat
  has_cred : Bool
  deriving DecidableEq, Repr

/-- Where the suspendable attempt currently is: a write has been issued
(`writing`), the `read_until` has been issued (`reading`), the task has
completed, or the environment stopped delivering completions. -/
inductive AsyncPhase where
  | writing
  | reading
  | completed (r : Except GError GStream)
  | stalled
  deriving Repr

/-- The whole suspended state: task data plus the environment events not
yet consumed. -/
structure AsyncSM where
  data : ConnectAsyncData
  phase : AsyncPhase
  pendingWrites : List WriteOutcome
  pendingRead : ReadOutcome
  deriving Repr

/-- `complete_async_from_error`: a `NULL` error is normalized to the
premature-close error before the task is completed. -/
def complete_async_from_error : Option GError → GError
  | none => closedUnexpectedlyError
  | some e => e

/-- One completion-callback activation of the suspendable driver: either
`request_write_cb` (phase `writing`) or `reply_read_cb` (phase
`reading`).  Terminal phases are fixed points. -/
def async_step (s : AsyncSM) : AsyncSM :=
  match s.phase with
  | .writing =>
    match s.pendingWrites with
    | [] => { s with phase := .stalled }
    | .failed e :: _ =>
      { s with phase := .completed (.error (complete_async_from_error (some e))) }
    | .wrote n :: rest =>
      if s.data.offset + n = s.data.length then
        { s with data := { s.data with offset := s.data.offset + n, buffer := none },
                 pendingWrites := rest, phase := .reading }
      else
        { s with data := { s.data with offset := s.data.offset + n },
                 pendingWrites := rest, phase := .writing }
  | .reading =>
    match s.pendingRead with
    | .failed e =>
      { s with phase := .completed (.error (complete_async_from_error (some e))) }
    | .closed =>
      { s with phase := .completed (.error (complete_async_from_error none)) }
    | .got buffer =>
      match check_reply buffer s.data.has_cred with
      | .error e =>
        { s with phase := .completed (.error (complete_async_from_error (some e))) }
      | .ok _ => { s with phase := .completed (.ok s.data.io_stream) }
  | _ => s

/-- Rank used for the termination measure of `asyncRun`. -/
def phaseRank : AsyncPhase → Nat
  | .writing => 2
  | .reading => 1
  | _ => 0

/-- Termination measure: every callback activation either consumes a
pending write completion or moves to a lower-ranked phase. -/
def smMeasure (s : AsyncSM) : Nat :=
  2 * s.pendingWrites.length + phaseRank s.phase

theorem async_step_decreases (s : AsyncSM) (h : phaseRank s.phase ≠ 0) :
    smMeasure (async_step s) < smMeasure s := by
  rcases s with ⟨d, ph, ws, ro⟩
  cases ph with
  | writing =>
    cases ws with
    | nil => simp [async_step, smMeasure, phaseRank]
    | cons w rest =>
      cases w with
      | failed e => simp [async_step, smMeasure, phaseRank]
      | wrote n =>
        by_cases hn : d.offset + n = d.length
        · simp [async_step, smMeasure, phaseRank, hn]
          omega
        · simp [async_step, smMeasure, phaseRank, hn]
  | reading =>
    simp only [async_step]
    cases ro with
    | got buffer =>
      cases hc : check_reply buffer d.has_cred with
      | error e => simp [hc, smMeasure, phaseRank]
      | ok u => simp [hc, smMeasure, phaseRank]
    | closed => simp [smMeasure, phaseRank]
    | failed e => simp [smMeasure, phaseRank]
  | completed r => simp [phaseRank] at h
  | stalled => simp [phaseRank] at h

set_option linter.unusedVariables false in
/-- Drive the suspendable attempt to quiescence: iterate the callback
step until the task completes or the environment stops delivering. -/
def asyncRun (s : AsyncSM) : Option (Except GError GStream) :=
  match h : s.phase with
  | .completed r => some r
  | .stalled => none
  | .writing => asyncRun (async_step s)
  | .reading => asyncRun (async_step s)
termination_by smMeasure s
decreasing_by
  · exact async_step_decreases s (by rw [h]; simp [phaseRank])
  · exact async_step_decreases s (by rw [h]; simp [phaseRank])

/-- The state `stream_connected` leaves behind: task data initialized by
`wocky_http_proxy_connect_async` (request built, cursor at 0), the
selected stream recorded, and the first write issued. -/
def asyncWriteStart (benv : BuildEnv) (env : ProxyEnv) (addr : GProxyAddress)
    (stream : GStream) : AsyncSM :=
  let rq := create_request benv addr
  { data := { io_stream := stream, buffer := some rq.1, length := rq.1.length,
              offset := 0, has_cred := rq.2 },
    phase := .writing, pendingWrites := env.writes, pendingRead := env.readO }

/-- The suspendable driver, `wocky_http_proxy_connect_async` driven to the
result that `wocky_http_proxy_connect_finish` would propagate. -/
def wocky_http_proxy_connect_async (benv : BuildEnv) (isHttps : Bool)
    (env : ProxyEnv) (addr : GProxyAddress) : Option (Except GError GStream) :=
  if isHttps then
    match env.tlsNew with
    | .error e => some (.error (complete_async_from_error (some e)))
    | .ok _ =>
      match env.handshake with
      | .error e => some (.error (complete_async_from_error (some e)))
      | .ok _ => asyncRun (asyncWriteStart benv env addr .tls)
  else
    asyncRun (asyncWriteStart benv env addr .raw)

/-- Chunking discipline of the byte-stream contract: each completed write
transfers at most the number of bytes that were requested (the bytes
still untransmitted). -/
def writesConformant : List WriteOutcome → Nat → Bool
  | [], _ => true
  | .failed _ :: _, _ => true
  | .wrote n :: rest, remaining =>
    decide (n ≤ remaining) && writesConformant rest (remaining - n)

/-! ## Helper lemmas -/

theorem b64val_b64char : ∀ k, k < 64 → b64val (b64char k) = k := by decide

theorem b64char_ne_61 : ∀ k, k < 64 → b64char k ≠ 61 := by decide

/-- Round trip: decoding an encoded byte sequence recovers it. -/
theorem b64_roundtrip : ∀ (l : List Nat), (∀ x ∈ l, x < 256) →
    g_base64_decode (g_base64_encode l) = l
  | [], _ => rfl
  | [a], h => by
    have ha : a < 256 := h a (by simp)
    have e1 : b64val (b64char (a / 4)) = a / 4 := b64val_b64char _ (by omega)
    have e2 : b64val (b64char ((a % 4) * 16)) = (a % 4) * 16 :=
      b64val_b64char _ (by omega)
    simp [g_base64_encode, g_base64_decode, e1, e2]
    omega
  | [a, b], h => by
    have ha : a < 256 := h a (by simp)
    have hb : b < 256 := h b (by simp)
    have e1 : b64val (b64char (a / 4)) = a / 4 := b64val_b64char _ (by omega)
    have e2 : b64val (b64char ((a % 4) * 16 + b / 16)) = (a % 4) * 16 + b / 16 :=
      b64val_b64char _ (by omega)
    have e3 : b64val (b64char ((b % 16) * 4)) = (b % 16) * 4 :=
      b64val_b64char _ (by omega)
    have n3 : b64char ((b % 16) * 4) ≠ 61 := b64char_ne_61 _ (by omega)
    simp [g_base64_encode, g_base64_decode, n3, e1, e2, e3]
    omega
  | a :: b :: c :: rest, h => by
    have ha : a < 256 := h a (by simp)
    have hb : b < 256 := h b (by simp)
    have hc : c < 256 := h c (by simp)
    have ih := b64_roundtrip rest (fun x hx => h x (by simp [hx]))
    have e1 : b64val (b64char (a / 4)) = a / 4 := b64val_b64char _ (by omega)
    have e2 : b64val (b64char ((a % 4) * 16 + b / 16)) = (a % 4) * 16 + b / 16 :=
      b64val_b64char _ (by omega)
    have e3 : b64val (b64char ((b % 16) * 4 + c / 64)) = (b % 16) * 4 + c / 64 :=
      b64val_b64char _ (by omega)
    have e4 : b64val (b64char (c % 64)) = c % 64 := b64val_b64char _ (by omega)
    have n3 : b64char ((b % 16) * 4 + c / 64) ≠ 61 := b64char_ne_61 _ (by omega)
    have n4 : b64char (c % 64) ≠ 61 := b64char_ne_61 _ (by omega)
    simp [g_base64_encode, g_base64_decode, n3, n4, e1, e2, e3, e4, ih]
    omega

/-- The rendered request always begins with the 8 literal bytes of
`CONNECT `, hence is never empty. -/
theorem create_request_length_pos (benv : BuildEnv) (addr : GProxyAddress) :
    0 < (create_request benv addr).1.length := by
  rcases addr with ⟨hst, port, u, p⟩
  cases u <;> cases p <;>
    simp [create_request, requestBase, str, List.length_append]

/-- Unfolding `asyncRun` at a completed task. -/
theorem asyncRun_completed (s : AsyncSM) (r : Except GError GStream)
    (h : s.phase = .completed r) : asyncRun s = some r := by
  conv_lhs => unfold asyncRun
  split <;> simp_all

/-- Unfolding `asyncRun` at a stalled attempt. -/
theorem asyncRun_stalled (s : AsyncSM) (h : s.phase = .stalled) :
    asyncRun s = none := by
  conv_lhs => unfold asyncRun
  split <;> simp_all

/-- Unfolding `asyncRun` while a write is pending. -/
theorem asyncRun_writing (s : AsyncSM) (h : s.phase = .writing) :
    asyncRun s = asyncRun (async_step s) := by
  conv_lhs => unfold asyncRun
  split <;> simp_all

/-- Unfolding `asyncRun` while the read is pending. -/
theorem asyncRun_reading (s : AsyncSM) (h : s.phase = .reading) :
    asyncRun s = asyncRun (async_step s) := by
  conv_lhs => unfold asyncRun
  split <;> simp_all

/-- The classification `reply_read_cb` applies to the read outcome. -/
def readResult (ro : ReadOutcome) (has_cred : Bool) (stream : GStream) :
    Except GError GStream :=
  match ro with
  | .failed e => .error e
  | .closed => .error closedUnexpectedlyError
  | .got buffer =>
    match check_reply buffer has_cred with
    | .error e => .error e
    | .ok _ => .ok stream

/-- Once the read has been issued, the suspendable attempt completes with
the classification of the read outcome. -/
theorem asyncRun_read_phase (d : ConnectAsyncData) (ws : List WriteOutcome)
    (ro : ReadOutcome) :
    asyncRun ⟨d, .reading, ws, ro⟩ = some (readResult ro d.has_cred d.io_stream) := by
  rw [asyncRun_reading _ rfl]
  cases ro with
  | failed e =>
    rw [asyncRun_completed _ (.error e) (by simp [async_step, complete_async_from_error])]
    simp [readResult]
  | closed =>
    rw [asyncRun_completed _ (.error closedUnexpectedlyError)
      (by simp [async_step, complete_async_from_error])]
    simp [readResult]
  | got buffer =>
    cases hcheck : check_reply buffer d.has_cred with
    | error e =>
      rw [asyncRun_completed _ (.error e)
        (by simp [async_step, hcheck, complete_async_from_error])]
      simp [readResult, hcheck]
    | ok u =>
      rw [asyncRun_completed _ (.ok d.io_stream) (by simp [async_step, hcheck])]
      simp [readResult, hcheck]

/-- The suspendable write loop consumes write completions exactly as the
blocking `g_output_stream_write_all` does, then runs the read phase. -/
theorem asyncRun_write_phase : ∀ (ws : List WriteOutcome) (d : ConnectAsyncData)
    (ro : ReadOutcome), d.offset < d.length →
    writesConformant ws (d.length - d.offset) = true →
    asyncRun ⟨d, .writing, ws, ro⟩ =
      match g_output_stream_write_all ws d.offset d.length with
      | none => none
      | some (.error e) => some (.error e)
      | some (.ok _) => some (readResult ro d.has_cred d.io_stream) := by
  intro ws
  induction ws with
  | nil =>
    intro d ro hlt _
    rw [asyncRun_writing _ rfl]
    rw [asyncRun_stalled _ (by simp [async_step])]
    rw [g_output_stream_write_all.eq_def]
    simp [hlt]
  | cons w rest ih =>
    intro d ro hlt hconf
    cases w with
    | failed e =>
      rw [asyncRun_writing _ rfl]
      rw [asyncRun_completed _ (.error e)
        (by simp [async_step, complete_async_from_error])]
      rw [g_output_stream_write_all.eq_def]
      simp [hlt]
    | wrote n =>
      have hconf' : n ≤ d.length - d.offset ∧
          writesConformant rest (d.length - d.offset - n) = true := by
        simpa [writesConformant] using hconf
      rw [asyncRun_writing _ rfl]
      rw [g_output_stream_write_all.eq_def]
      simp only [if_pos hlt]
      by_cases hfin : d.offset + n = d.length
      · have hstep : async_step ⟨d, .writing, .wrote n :: rest, ro⟩ =
            ⟨{ d with offset := d.offset + n, buffer := none }, .reading, rest, ro⟩ := by
          simp [async_step, hfin]
        rw [hstep, asyncRun_read_phase]
        have : ¬ d.offset + n < d.length := by omega
        rw [g_output_stream_write_all.eq_def]
        simp [this]
      · have hlt' : d.offset + n < d.length := by omega
        have hstep : async_step ⟨d, .writing, .wrote n :: rest, ro⟩ =
            ⟨{ d with offset := d.offset + n }, .writing, rest, ro⟩ := by
          simp [async_step, hfin]
        rw [hstep]
        have hrec := ih { d with offset := d.offset + n } ro (by simpa using hlt')
          (by simpa using (by
            have := hconf'.2
            have heq : d.length - d.offset - n = d.length - (d.offset + n) := by omega
            rw [heq] at this
            exact this))
        simpa using hrec

/-! ## Write-cursor invariant machinery -/

/-- Invariant maintained by every callback activation: the cursor stays
within the request, the remaining completions stay conformant to the
bytes still untransmitted, and the read phase is only ever entered with
the request fully transmitted. -/
def SMInv (s : AsyncSM) : Prop :=
  s.data.offset ≤ s.data.length ∧
  writesConformant s.pendingWrites (s.data.length - s.data.offset) = true ∧
  (s.phase = .reading → s.data.offset = s.data.length)

theorem SMInv_step (s : AsyncSM) (h : SMInv s) : SMInv (async_step s) := by
  unfold SMInv at h ⊢
  obtain ⟨hle, hconf, hread⟩ := h
  rcases s with ⟨d, ph, ws, ro⟩
  dsimp only at hle hconf hread
  cases ph with
  | writing =>
    cases ws with
    | nil =>
      have hstep : async_step ⟨d, .writing, [], ro⟩ = ⟨d, .stalled, [], ro⟩ := by
        simp [async_step]
      rw [hstep]
      exact ⟨hle, hconf, by simp⟩
    | cons w rest =>
      cases w with
      | failed e =>
        have hstep : async_step ⟨d, AsyncPhase.writing, .failed e :: rest, ro⟩ =
            ⟨d, .completed (.error e), .failed e :: rest, ro⟩ := by
          simp [async_step, complete_async_from_error]
        rw [hstep]
        exact ⟨hle, hconf, by simp⟩
      | wrote n =>
        have hconf2 : n ≤ d.length - d.offset ∧
            writesConformant rest (d.length - d.offset - n) = true := by
          simpa [writesConformant] using hconf
        have heq : d.length - (d.offset + n) = d.length - d.offset - n := by omega
        by_cases hn : d.offset + n = d.length
        · have hstep : async_step ⟨d, AsyncPhase.writing, .wrote n :: rest, ro⟩ =
              ⟨{ d with offset := d.offset + n, buffer := none }, .reading, rest, ro⟩ := by
            simp [async_step, hn]
          rw [hstep]
          refine ⟨by simp; omega, ?_, by simp [hn]⟩
          simp only
          rw [heq]
          exact hconf2.2
        · have hstep : async_step ⟨d, AsyncPhase.writing, .wrote n :: rest, ro⟩ =
              ⟨{ d with offset := d.offset + n }, .writing, rest, ro⟩ := by
            simp [async_step, hn]
          rw [hstep]
          refine ⟨by simp; omega, ?_, by simp⟩
          simp only
          rw [heq]
          exact hconf2.2
  | reading =>
    cases ro with
    | got buffer =>
      cases hc : check_reply buffer d.has_cred with
      | error e =>
        have hstep : async_step ⟨d, AsyncPhase.reading, ws, .got buffer⟩ =
            ⟨d, .completed (.error e), ws, .got buffer⟩ := by
          simp [async_step, hc, complete_async_from_error]
        rw [hstep]
        exact ⟨hle, hconf, by simp⟩
      | ok u =>
        have hstep : async_step ⟨d, AsyncPhase.reading, ws, .got buffer⟩ =
            ⟨d, .completed (.ok d.io_stream), ws, .got buffer⟩ := by
          simp [async_step, hc]
        rw [hstep]
        exact ⟨hle, hconf, by simp⟩
    | closed =>
      have hstep : async_step ⟨d, AsyncPhase.reading, ws, .closed⟩ =
          ⟨d, .completed (.error closedUnexpectedlyError), ws, .closed⟩ := by
        simp [async_step, complete_async_from_error]
      rw [hstep]
      exact ⟨hle, hconf, by simp⟩
    | failed e =>
      have hstep : async_step ⟨d, AsyncPhase.reading, ws, .failed e⟩ =
          ⟨d, .completed (.error e), ws, .failed e⟩ := by
        simp [async_step, complete_async_from_error]
      rw [hstep]
      exact ⟨hle, hconf, by simp⟩
  | completed r => exact ⟨hle, hconf, by simp [async_step]⟩
  | stalled => exact ⟨hle, hconf, by simp [async_step]⟩

/-- One callback activation never moves the cursor backwards. -/
theorem async_step_offset_mono (s : AsyncSM) :
    s.data.offset ≤ (async_step s).data.offset := by
  rcases s with ⟨d, ph, ws, ro⟩
  cases ph with
  | writing =>
    cases ws with
    | nil => simp [async_step]
    | cons w rest =>
      cases w with
      | failed e => simp [async_step]
      | wrote n =>
        by_cases hn : d.offset + n = d.length
        · have hstep : async_step ⟨d, AsyncPhase.writing, .wrote n :: rest, ro⟩ =
              ⟨{ d with offset := d.offset + n, buffer := none }, .reading, rest, ro⟩ := by
            simp [async_step, hn]
          rw [hstep]
          simp
        · have hstep : async_step ⟨d, AsyncPhase.writing, .wrote n :: rest, ro⟩ =
              ⟨{ d with offset := d.offset + n }, .writing, rest, ro⟩ := by
            simp [async_step, hn]
          rw [hstep]
          simp
  | reading =>
    cases ro with
    | got buffer =>
      cases hc : check_reply buffer d.has_cred <;> simp [async_step, hc]
    | closed => simp [async_step]
    | failed e => simp [async_step]
  | completed r => simp [async_step]
  | stalled => simp [async_step]

/-- A completed write of `n` bytes advances the cursor by exactly `n`. -/
theorem async_step_advances_exactly (s : AsyncSM) (n : Nat)
    (rest : List WriteOutcome) (hph : s.phase = .writing)
    (hws : s.pendingWrites = .wrote n :: rest) :
    (async_step s).data.offset = s.data.offset + n := by
  rcases s with ⟨d, ph, ws, ro⟩
  simp only at hph hws
  subst hph hws
  by_cases hn : d.offset + n = d.length <;> simp [async_step, hn]

/-- The suspended state after `k` callback activations of one attempt. -/
def asyncIter (benv : BuildEnv) (env : ProxyEnv) (addr : GProxyAddress)
    (stream : GStream) (k : Nat) : AsyncSM :=
  async_step^[k] (asyncWriteStart benv env addr stream)

theorem SMInv_asyncIter (benv : BuildEnv) (env : ProxyEnv) (addr : GProxyAddress)
    (stream : GStream) (k : Nat)
    (hconf : writesConformant env.writes (create_request benv addr).1.length = true) :
    SMInv (asyncIter benv env addr stream k) := by
  induction k with
  | zero =>
    refine ⟨by simp [asyncIter, asyncWriteStart], ?_, by simp [asyncIter, asyncWriteStart]⟩
    simpa [asyncIter, asyncWriteStart] using hconf
  | succ k ih =>
    rw [asyncIter, Function.iterate_succ_apply']
    exact SMInv_step _ ih

/-- Whole-run description of the suspendable driver from the state
`stream_connected` hands over: consume write completions like the blocking
`write_all`, then classify the read outcome. -/
theorem asyncRun_start (benv : BuildEnv) (env : ProxyEnv) (addr : GProxyAddress)
    (st : GStream)
    (hconf : writesConformant env.writes (create_request benv addr).1.length = true) :
    asyncRun (asyncWriteStart benv env addr st) =
      match g_output_stream_write_all env.writes 0 (create_request benv addr).1.length with
      | none => none
      | some (.error e) => some (.error e)
      | some (.ok _) => some (readResult env.readO (create_request benv addr).2 st) := by
  have hlen := create_request_length_pos benv addr
  have h := asyncRun_write_phase env.writes
    { io_stream := st, buffer := some (create_request benv addr).1,
      length := (create_request benv addr).1.length, offset := 0,
      has_cred := (create_request benv addr).2 } env.readO (by simpa using hlen)
    (by simpa using hconf)
  simpa [asyncWriteStart] using h

/-! ## Claims

Concrete instances used by witnesses. -/

/-- Build environment with the identity hostname conversion and GLib
version 2.80. -/
def idBuildEnv : BuildEnv :=
  ⟨fun l => l, 2, 80⟩

/-- A credential-free destination. -/
def sampleAddr : GProxyAddress :=
  ⟨str "example.com", 8080, none, none⟩

/-- A destination with non-empty credentials. -/
def credAddr : GProxyAddress :=
  ⟨str "example.com", 8080, some (str "user"), some (str "pass")⟩

/-- A destination whose username and password are present but empty. -/
def emptyCredAddr : GProxyAddress :=
  ⟨str "example.com", 8080, some [], some []⟩

/-- C2: for every well-formed reply buffer whose parsed status code lies
in [200, 300), check_reply reports success whatever the remainder of the
buffer holds; the boundary codes 200 and 299 succeed and 199 and 300
fail. -/
theorem reply_2xx_success (b : List Nat) (cred : Bool) (hp : validPrefix b)
    (h200 : 200 ≤ parsedCode b) (h300 : parsedCode b < 300) :
    check_reply b cred = .ok () ∧
    check_reply (str "HTTP/1.0 200 Connection established\r") cred = .ok () ∧
    check_reply (str "HTTP/1.0 299 Nearly\r") cred = .ok () ∧
    check_reply (str "HTTP/1.0 199 Early\r") cred =
      .error ⟨.proxyFailed, str "HTTP proxy connection failed: 199 Early"⟩ ∧
    check_reply (str "HTTP/1.0 300 Multiple Choices\r") cred =
      .error ⟨.proxyFailed, str "HTTP proxy connection failed: 300 Multiple Choices"⟩ := by
  refine ⟨?_, rfl, rfl, rfl, rfl⟩
  unfold check_reply
  rw [if_pos hp, if_neg (by omega)]

/-- C2 witness: a concrete 204 reply is accepted. -/
theorem reply_2xx_success_witness :
    validPrefix (str "HTTP/1.1 204 No Content\r") ∧
    200 ≤ parsedCode (str "HTTP/1.1 204 No Content\r") ∧
    parsedCode (str "HTTP/1.1 204 No Content\r") < 300 ∧
    check_reply (str "HTTP/1.1 204 No Content\r") true = .ok () :=
  ⟨by decide, by decide, by decide,
    (reply_2xx_success _ true (by decide) (by decide) (by decide)).1⟩

/-- C3: on a version-valid reply whose status code is outside [200, 300),
check_reply fails with exactly the classification the spec lists: 407
with credentials gives the auth-failed error, 407 without gives the
auth-required error, any other code gives the broken-reply error when the
extracted reason phrase is empty and the code-plus-phrase proxy failure
when it is not. -/
theorem reply_failure_classification (b : List Nat) (cred : Bool)
    (hp : validPrefix b) (hout : parsedCode b < 200 ∨ 300 ≤ parsedCode b) :
    check_reply b cred = .error (
      if parsedCode b = 407 then
        if cred then ⟨.proxyAuthFailed, str "HTTP proxy authentication failed"⟩
        else ⟨.proxyNeedAuth, str "HTTP proxy authentication required"⟩
      else if reasonPhrase b = [] then
        ⟨.proxyFailed, str "Connection failed due to broken HTTP reply"⟩
      else
        ⟨.proxyFailed, str "HTTP proxy connection failed: " ++
          intToDec (parsedCode b) ++ (32 :: reasonPhrase b)⟩) := by
  unfold check_reply
  rw [if_pos hp, if_pos hout]
  by_cases h407 : parsedCode b = 407
  · rw [if_pos h407, if_pos h407]
    cases cred <;> simp
  · rw [if_neg h407, if_neg h407]
    by_cases hmsg : reasonPhrase b = []
    · rw [if_pos hmsg, if_pos hmsg]
    · rw [if_neg hmsg, if_neg hmsg]

/-- C3 witness: a 407 reply with credentials supplied. -/
theorem reply_failure_classification_witness :
    validPrefix (str "HTTP/1.1 407 Proxy Authentication Required\r") ∧
    (parsedCode (str "HTTP/1.1 407 Proxy Authentication Required\r") < 200 ∨
      300 ≤ parsedCode (str "HTTP/1.1 407 Proxy Authentication Required\r")) ∧
    check_reply (str "HTTP/1.1 407 Proxy Authentication Required\r") true = .error (
      if parsedCode (str "HTTP/1.1 407 Proxy Authentication Required\r") = 407 then
        if true then ⟨.proxyAuthFailed, str "HTTP proxy authentication failed"⟩
        else ⟨.proxyNeedAuth, str "HTTP proxy authentication required"⟩
      else if reasonPhrase (str "HTTP/1.1 407 Proxy Authentication Required\r") = [] then
        ⟨.proxyFailed, str "Connection failed due to broken HTTP reply"⟩
      else
        ⟨.proxyFailed, str "HTTP proxy connection failed: " ++
          intToDec (parsedCode (str "HTTP/1.1 407 Proxy Authentication Required\r")) ++
          (32 :: reasonPhrase (str "HTTP/1.1 407 Proxy Authentication Required\r"))⟩) :=
  ⟨by decide, by decide,
    reply_failure_classification _ true (by decide) (by decide)⟩

/-- C7: a buffer whose first 8 bytes are not HTTP/1.0 or HTTP/1.1 is
rejected as a bad HTTP proxy reply with no further parsing, whatever the
rest of the buffer and the credential flag; in particular GARBAGE
input. -/
theorem reply_bad_version_line (b : List Nat) (cred : Bool) :
    (¬ validPrefix b → check_reply b cred = .error badReplyError) ∧
    check_reply (str "GARBAGE\r\n\r\n") cred = .error badReplyError := by
  constructor
  · intro h
    unfold check_reply
    rw [if_neg h]
  · rfl

/-- C7 witness: an unsupported HTTP/2.0 status line is rejected. -/
theorem reply_bad_version_line_witness :
    ¬ validPrefix (str "HTTP/2.0 200 OK\r") ∧
    check_reply (str "HTTP/2.0 200 OK\r") false = .error badReplyError :=
  ⟨by decide, (reply_bad_version_line _ false).1 (by decide)⟩

/-- C8 counterexample: the bytes after the spaces start with a non-digit
(a minus sign), yet the parsed code is -1, not 0: atoi accepts an
optional sign, so "non-digit input yields a code of 0" fails as
stated. -/
theorem reply_nondigit_counterexample :
    validPrefix (str "HTTP/1.1 -1 x\r") ∧
    isDigitByte (cget (statusStart (str "HTTP/1.1 -1 x\r")) 0) = false ∧
    parsedCode (str "HTTP/1.1 -1 x\r") = -1 ∧
    parsedCode (str "HTTP/1.1 -1 x\r") ≠ 0 := by
  decide

/-- C8 amended: after the version check the parser skips the run of
spaces and applies atoi; when the remaining input begins with no digit,
no sign and no whitespace (or is empty), the parsed code is 0 and the
reply is classified by the same out-of-range rule as any other non-2xx
code (0 is not 407), never as a distinct parse error. -/
theorem reply_nondigit_code_zero (b : List Nat) (cred : Bool) (hp : validPrefix b)
    (hhead : (statusStart b).head? = none ∨
      ∃ c, (statusStart b).head? = some c ∧ isDigitByte c = false ∧
        c ≠ 43 ∧ c ≠ 45 ∧ isSpaceByte c = false) :
    parsedCode b = 0 ∧
    check_reply b cred = .error (
      if reasonPhrase b = [] then
        ⟨.proxyFailed, str "Connection failed due to broken HTTP reply"⟩
      else
        ⟨.proxyFailed, str "HTTP proxy connection failed: " ++ intToDec 0 ++
          (32 :: reasonPhrase b)⟩) := by
  have hz : parsedCode b = 0 := by
    unfold parsedCode atoi
    rcases hhead with hnil | ⟨c, hc, hd, h43, h45, hsp⟩
    · cases hss : statusStart b with
      | nil => simp [parseDigits]
      | cons c0 rest => rw [hss] at hnil; simp at hnil
    · cases hss : statusStart b with
      | nil => rw [hss] at hc; simp at hc
      | cons c0 rest =>
        rw [hss] at hc
        simp only [List.head?_cons, Option.some.injEq] at hc
        subst hc
        have hdw : (c0 :: rest).dropWhile isSpaceByte = c0 :: rest := by
          simp [List.dropWhile_cons, hsp]
        rw [hdw]
        split
        · next r heq =>
          injection heq with h1 _
          exact absurd h1 h45
        · next r heq =>
          injection heq with h1 _
          exact absurd h1 h43
        · next l2 h1 h2 =>
          simp [parseDigits, hd]
  refine ⟨hz, ?_⟩
  unfold check_reply
  rw [if_pos hp, if_pos (by rw [hz]; norm_num), if_neg (by rw [hz]; norm_num), hz]
  by_cases hmsg : reasonPhrase b = []
  · rw [if_pos hmsg, if_pos hmsg]
  · rw [if_neg hmsg, if_neg hmsg]

/-- C8 amended witness: a letter after the spaces parses as code 0 and is
classified by the out-of-range rule. -/
theorem reply_nondigit_code_zero_witness :
    validPrefix (str "HTTP/1.1 abc\r") ∧
    (parsedCode (str "HTTP/1.1 abc\r") = 0 ∧
      check_reply (str "HTTP/1.1 abc\r") false = .error (
        if reasonPhrase (str "HTTP/1.1 abc\r") = [] then
          ⟨.proxyFailed, str "Connection failed due to broken HTTP reply"⟩
        else
          ⟨.proxyFailed, str "HTTP proxy connection failed: " ++ intToDec 0 ++
            (32 :: reasonPhrase (str "HTTP/1.1 abc\r"))⟩)) :=
  ⟨by decide, reply_nondigit_code_zero _ false (by decide)
    (Or.inr ⟨97, rfl, by decide, by decide, by decide, by decide⟩)⟩

/-- C4: the rendered request is exactly the request line
CONNECT host:port HTTP/1.0, then the Host, Proxy-Connection and
User-Agent headers in that order, then the optional Proxy-Authorization
header, terminated by a blank line.  The builder is a pure function, so
it is deterministic and has no side effects. -/
theorem request_exact_bytes (benv : BuildEnv) (addr : GProxyAddress) :
    (create_request benv addr).1 =
      (str "CONNECT " ++ benv.toAscii addr.destination_hostname ++ str ":" ++
        natToDec addr.destination_port ++ str " HTTP/1.0\r\n") ++
      (str "Host: " ++ benv.toAscii addr.destination_hostname ++ str ":" ++
        natToDec addr.destination_port ++ str "\r\n") ++
      str "Proxy-Connection: keep-alive\r\n" ++
      (str "User-Agent: GLib/" ++ natToDec benv.glib_major ++ str "." ++
        natToDec benv.glib_minor ++ str "\r\n") ++
      (match addr.username, addr.password with
        | some u, some p =>
          str "Proxy-Authorization: Basic " ++
            g_base64_encode (u ++ str ":" ++ p) ++ str "\r\n"
        | _, _ => []) ++
      str "\r\n" := by
  rcases addr with ⟨hst, port, u, p⟩
  cases u <;> cases p <;> simp [create_request, requestBase, List.append_assoc]

/-- C5 counterexample: a target whose username and password are present
but both empty still gets has_credentials set, so "true iff both
username and password are non-empty" fails as stated (the source tests
for NULL, not for emptiness). -/
theorem credentials_nonempty_counterexample :
    emptyCredAddr.username = some [] ∧ emptyCredAddr.password = some [] ∧
    (create_request idBuildEnv emptyCredAddr).2 = true :=
  ⟨rfl, rfl, rfl⟩

/-- C5 amended: has_credentials is true iff both username and password
are present (non-NULL, possibly empty); the Proxy-Authorization header is
appended exactly when the flag is set; and Base64-decoding the header
value yields exactly username:password. -/
theorem credentials_flag_header_roundtrip (benv : BuildEnv)
    (addr : GProxyAddress) (u p : List Nat)
    (hu : addr.username = some u) (hp : addr.password = some p)
    (hbytes : ∀ x ∈ u ++ str ":" ++ p, x < 256) :
    ((create_request benv addr).2 = true ↔
      addr.username.isSome ∧ addr.password.isSome) ∧
    (create_request benv addr).1 =
      requestBase benv addr ++ str "Proxy-Authorization: Basic " ++
        g_base64_encode (u ++ str ":" ++ p) ++ str "\r\n" ++ str "\r\n" ∧
    g_base64_decode (g_base64_encode (u ++ str ":" ++ p)) = u ++ str ":" ++ p ∧
    (∀ (addr2 : GProxyAddress),
      addr2.username = none ∨ addr2.password = none →
      (create_request benv addr2).2 = false ∧
      (create_request benv addr2).1 = requestBase benv addr2 ++ str "\r\n") := by
  refine ⟨by simp [create_request, hu, hp], by simp [create_request, hu, hp],
    b64_roundtrip _ hbytes, ?_⟩
  intro addr2 h2
  rcases addr2 with ⟨ah, ap, u2, p2⟩
  cases u2 <;> cases p2 <;> simp_all [create_request]

/-- C5 amended witness: the header value for user:pass decodes back to
user:pass. -/
theorem credentials_flag_header_roundtrip_witness :
    credAddr.username = some (str "user") ∧
    credAddr.password = some (str "pass") ∧
    (∀ x ∈ str "user" ++ str ":" ++ str "pass", x < 256) ∧
    g_base64_decode (g_base64_encode (str "user" ++ str ":" ++ str "pass")) =
      str "user" ++ str ":" ++ str "pass" :=
  ⟨rfl, rfl, by decide,
    (credentials_flag_header_roundtrip idBuildEnv credAddr (str "user")
      (str "pass") rfl rfl (by decide)).2.2.1⟩

/-- C10: present-but-empty credentials still get the Proxy-Authorization
header (with the Base64 of the possibly-empty username:password, in
particular Og== for ":") and set has_credentials; the header is omitted
only when the username or the password is absent (NULL). -/
theorem empty_credentials_still_sent (benv : BuildEnv) (addr : GProxyAddress)
    (u p : List Nat) (hu : addr.username = some u) (hp : addr.password = some p) :
    (create_request benv addr).2 = true ∧
    (create_request benv addr).1 =
      requestBase benv addr ++ str "Proxy-Authorization: Basic " ++
        g_base64_encode (u ++ str ":" ++ p) ++ str "\r\n" ++ str "\r\n" ∧
    g_base64_encode (([] : List Nat) ++ str ":" ++ []) = str "Og==" ∧
    (∀ (addr2 : GProxyAddress),
      addr2.username = none ∨ addr2.password = none →
      (create_request benv addr2).2 = false) := by
  refine ⟨by simp [create_request, hu, hp], by simp [create_request, hu, hp],
    by decide, ?_⟩
  intro addr2 h2
  rcases addr2 with ⟨ah, ap, u2, p2⟩
  cases u2 <;> cases p2 <;> simp_all [create_request]

/-- C10 witness: both credentials empty still set the flag. -/
theorem empty_credentials_still_sent_witness :
    emptyCredAddr.username = some [] ∧ emptyCredAddr.password = some [] ∧
    (create_request idBuildEnv emptyCredAddr).2 = true :=
  ⟨rfl, rfl,
    (empty_credentials_still_sent idBuildEnv emptyCredAddr [] [] rfl rfl).1⟩

/-- C1: for every target, every conformant chunking of the request
writes, and every read outcome, the blocking driver and the suspendable
driver return identical outcomes: the same selected stream on success,
the same classified failure, or in both cases no completion at all. -/
theorem driver_equivalence (benv : BuildEnv) (isHttps : Bool) (env : ProxyEnv)
    (addr : GProxyAddress)
    (hconf : writesConformant env.writes (create_request benv addr).1.length = true) :
    wocky_http_proxy_connect benv isHttps env addr =
      wocky_http_proxy_connect_async benv isHttps env addr := by
  have key : ∀ st : GStream, connect_after_tls benv env addr st =
      asyncRun (asyncWriteStart benv env addr st) := by
    intro st
    rw [asyncRun_start benv env addr st hconf]
    unfold connect_after_tls
    cases hw : g_output_stream_write_all env.writes 0 (create_request benv addr).1.length with
    | none => rfl
    | some r =>
      cases r with
      | error e => rfl
      | ok u =>
        cases hro : env.readO with
        | failed e => simp [readResult]
        | closed => simp [readResult]
        | got buffer =>
          cases hc : check_reply buffer (create_request benv addr).2 with
          | error e => simp [readResult, hc]
          | ok v => simp [readResult, hc]
  unfold wocky_http_proxy_connect wocky_http_proxy_connect_async
  cases isHttps with
  | false =>
    simp only [Bool.false_eq_true, if_false]
    exact key .raw
  | true =>
    simp only [if_true]
    cases env.tlsNew with
    | error e => simp [complete_async_from_error]
    | ok u =>
      cases env.handshake with
      | error e => simp [complete_async_from_error]
      | ok v => exact key .tls

/-- Environment for the driver witnesses: the request leaves in two
chunks and the proxy accepts. -/
def chunkedEnv : ProxyEnv :=
  ⟨.ok (), .ok (),
    [.wrote 10, .wrote ((create_request idBuildEnv sampleAddr).1.length - 10)],
    .got (str "HTTP/1.1 200 Connection established")⟩

/-- C1 witness: a concrete two-chunk conformant run. -/
theorem driver_equivalence_witness :
    writesConformant chunkedEnv.writes
      (create_request idBuildEnv sampleAddr).1.length = true ∧
    wocky_http_proxy_connect idBuildEnv false chunkedEnv sampleAddr =
      wocky_http_proxy_connect_async idBuildEnv false chunkedEnv sampleAddr :=
  ⟨by decide, driver_equivalence idBuildEnv false chunkedEnv sampleAddr (by decide)⟩

/-- C6: when the stream ends before the terminator with no error
reported (readO = closed), and the write phase completed, both drivers
report the normalized closed-unexpectedly proxy failure, which is a
BadReply-class (PROXY_FAILED) error and never a bare success. -/
theorem eos_normalized (benv : BuildEnv) (isHttps : Bool) (env : ProxyEnv)
    (addr : GProxyAddress)
    (hr : env.readO = .closed)
    (htn : env.tlsNew = .ok ()) (hhs : env.handshake = .ok ())
    (hconf : writesConformant env.writes (create_request benv addr).1.length = true)
    (hw : g_output_stream_write_all env.writes 0
      (create_request benv addr).1.length = some (.ok ())) :
    wocky_http_proxy_connect benv isHttps env addr =
      some (.error closedUnexpectedlyError) ∧
    wocky_http_proxy_connect_async benv isHttps env addr =
      some (.error closedUnexpectedlyError) ∧
    closedUnexpectedlyError =
      ⟨.proxyFailed, str "HTTP proxy server closed connection unexpectedly."⟩ := by
  have hblock : ∀ st : GStream, connect_after_tls benv env addr st =
      some (.error closedUnexpectedlyError) := by
    intro st
    unfold connect_after_tls
    rw [hw, hr]
  have hasync : ∀ st : GStream, asyncRun (asyncWriteStart benv env addr st) =
      some (.error closedUnexpectedlyError) := by
    intro st
    rw [asyncRun_start benv env addr st hconf, hw, hr]
    simp [readResult]
  refine ⟨?_, ?_, rfl⟩
  · unfold wocky_http_proxy_connect
    cases isHttps <;> simp [htn, hhs, hblock]
  · unfold wocky_http_proxy_connect_async
    cases isHttps <;> simp [htn, hhs, hasync]

/-- Environment for the end-of-stream witnesses: full request written in
one completion, then the stream closes with no reply. -/
def eosEnv : ProxyEnv :=
  ⟨.ok (), .ok (), [.wrote (create_request idBuildEnv sampleAddr).1.length], .closed⟩

/-- C6 witness: zero reply bytes after a complete write yields the
closed-unexpectedly failure through the HTTPS blocking driver. -/
theorem eos_normalized_witness :
    eosEnv.readO = .closed ∧
    g_output_stream_write_all eosEnv.writes 0
      (create_request idBuildEnv sampleAddr).1.length = some (.ok ()) ∧
    wocky_http_proxy_connect idBuildEnv true eosEnv sampleAddr =
      some (.error closedUnexpectedlyError) :=
  ⟨rfl, rfl,
    (eos_normalized idBuildEnv true eosEnv sampleAddr rfl rfl rfl
      (by decide) rfl).1⟩

/-- C9: along every conformant run of the suspendable driver, the write
cursor stays within the request (offset ≤ length), never moves
backwards, advances by exactly the number of bytes each completed write
transferred, and the read phase is entered only with offset = length. -/
theorem write_cursor_invariant (benv : BuildEnv) (env : ProxyEnv)
    (addr : GProxyAddress) (stream : GStream) (k : Nat)
    (hconf : writesConformant env.writes (create_request benv addr).1.length = true) :
    (asyncIter benv env addr stream k).data.offset ≤
      (asyncIter benv env addr stream k).data.length ∧
    ((asyncIter benv env addr stream k).phase = .reading →
      (asyncIter benv env addr stream k).data.offset =
        (asyncIter benv env addr stream k).data.length) ∧
    (asyncIter benv env addr stream k).data.offset ≤
      (asyncIter benv env addr stream (k + 1)).data.offset ∧
    (∀ n rest, (asyncIter benv env addr stream k).phase = .writing →
      (asyncIter benv env addr stream k).pendingWrites = .wrote n :: rest →
      (asyncIter benv env addr stream (k + 1)).data.offset =
        (asyncIter benv env addr stream k).data.offset + n) := by
  obtain ⟨h1, h2, h3⟩ := SMInv_asyncIter benv env addr stream k hconf
  have hsucc : asyncIter benv env addr stream (k + 1) =
      async_step (asyncIter benv env addr stream k) := by
    rw [asyncIter, asyncIter, Function.iterate_succ_apply']
  refine ⟨h1, h3, ?_, ?_⟩
  · rw [hsucc]
    exact async_step_offset_mono _
  · intro n rest hph hws
    rw [hsucc]
    exact async_step_advances_exactly _ n rest hph hws

/-- C9 witness: the invariant after one callback activation of a
concrete conformant run. -/
theorem write_cursor_invariant_witness :
    writesConformant eosEnv.writes
      (create_request idBuildEnv sampleAddr).1.length = true ∧
    (asyncIter idBuildEnv eosEnv sampleAddr .raw 1).data.offset ≤
      (asyncIter idBuildEnv eosEnv sampleAddr .raw 1).data.length :=
  ⟨by decide,
    (write_cursor_invariant idBuildEnv eosEnv sampleAddr .raw 1 (by decide)).1⟩

end WockyHttpProxy
